import Mathlib

/-!
A shallow embedding of `ginkgo_dsl.go`, the public declaration surface of the
Ginkgo BDD test framework, together with theorems checking the natural-language
specification against it.

Modelling conventions:
* Go `float64` timeout arguments are modelled exactly as rationals (`ℚ`);
  `time.Duration` values are integers counting nanoseconds (`ℤ`), and the Go
  conversion `time.Duration(x)` from a float truncates toward zero.
* Go variadic parameters are modelled as `List` arguments.
* The internal `Suite` (package `internal`, not part of this file's source) is
  modelled from the spec as a recorder of pushed nodes and recorded failures.
* `panic` / normal return of a Go function is modelled by an explicit
  `GoControl` result.
-/

namespace Ginkgo

/-- Opaque Go `interface\x7b\x7d` values (the arguments that pending
declarations ignore), modelled as naturals. -/
abbrev GoVal := ℕ

/-- The flag attached to each declared node: `internaltypes.FlagTypeNone`,
`FlagTypeFocused` or `FlagTypePending`. -/
inductive FlagType
  | none
  | focused
  | pending
deriving DecidableEq, Repr

/-- Modelled from the spec: the declaration location is an opaque external
token (file+line), produced by the external `codelocation.New(skip)`; the core
never interprets it, so we represent it by the skip argument it was built
from. -/
structure CodeLocation where
  skip : ℤ
deriving DecidableEq, Repr

/-- A node body as handed to the suite.  The DSL either forwards the
user-supplied value unchanged, or substitutes one of its own no-op closure
literals: `func() \x7b\x7d` (pushed by PIt/XIt) or
`func(b Benchmarker) \x7b\x7d` (pushed by PMeasure/XMeasure). -/
inductive GoBody
  | user (v : GoVal)
  | noopFn
  | noopBenchFn
deriving DecidableEq, Repr

/-- A node record as pushed onto the internal suite: its constructor is the
push method used, its fields are the push arguments.  Timeouts are in
nanoseconds, samples is the Go `int` sample count. -/
inductive Node
  | container (text : String) (body : GoBody) (flag : FlagType) (loc : CodeLocation)
  | it (text : String) (body : GoBody) (flag : FlagType) (loc : CodeLocation) (timeout : ℤ)
  | measure (text : String) (body : GoBody) (flag : FlagType) (loc : CodeLocation) (samples : ℤ)
  | beforeEach (body : GoBody) (loc : CodeLocation) (timeout : ℤ)
  | justBeforeEach (body : GoBody) (loc : CodeLocation) (timeout : ℤ)
  | afterEach (body : GoBody) (loc : CodeLocation) (timeout : ℤ)
deriving DecidableEq, Repr

/-- One recorded failure: the message and the caller-skip offset passed to the
suite's failure recorder. -/
structure Failure where
  message : String
  callerSkip : ℤ
deriving DecidableEq, Repr

/-- Modelled from the spec: the suite-wide run state.  The internal `Suite`
type is not part of this source file; per the spec it accumulates the nodes
pushed during tree building and the failures recorded by the failure
primitive, so we model it as those two ordered lists. -/
structure SuiteState where
  nodes : List Node
  failures : List Failure
deriving DecidableEq, Repr

/-- Modelled from the spec: `Suite.PushContainerNode` appends a grouping node
with the given attributes to the tree being built. -/
def SuiteState.pushContainerNode (s : SuiteState) (text : String) (body : GoBody)
    (flag : FlagType) (loc : CodeLocation) : SuiteState :=
  { s with nodes := s.nodes ++ [Node.container text body flag loc] }

/-- Modelled from the spec: `Suite.PushItNode` appends a leaf node with the
given attributes. -/
def SuiteState.pushItNode (s : SuiteState) (text : String) (body : GoBody)
    (flag : FlagType) (loc : CodeLocation) (timeout : ℤ) : SuiteState :=
  { s with nodes := s.nodes ++ [Node.it text body flag loc timeout] }

/-- Modelled from the spec: `Suite.PushMeasureNode` appends a measurement leaf
node with the given attributes. -/
def SuiteState.pushMeasureNode (s : SuiteState) (text : String) (body : GoBody)
    (flag : FlagType) (loc : CodeLocation) (samples : ℤ) : SuiteState :=
  { s with nodes := s.nodes ++ [Node.measure text body flag loc samples] }

/-- Modelled from the spec: `Suite.PushBeforeEachNode` appends a setup hook
node with the given attributes. -/
def SuiteState.pushBeforeEachNode (s : SuiteState) (body : GoBody)
    (loc : CodeLocation) (timeout : ℤ) : SuiteState :=
  { s with nodes := s.nodes ++ [Node.beforeEach body loc timeout] }

/-- Modelled from the spec: `Suite.PushJustBeforeEachNode` appends a setup
hook node with the given attributes. -/
def SuiteState.pushJustBeforeEachNode (s : SuiteState) (body : GoBody)
    (loc : CodeLocation) (timeout : ℤ) : SuiteState :=
  { s with nodes := s.nodes ++ [Node.justBeforeEach body loc timeout] }

/-- Modelled from the spec: `Suite.PushAfterEachNode` appends a teardown hook
node with the given attributes. -/
def SuiteState.pushAfterEachNode (s : SuiteState) (body : GoBody)
    (loc : CodeLocation) (timeout : ℤ) : SuiteState :=
  { s with nodes := s.nodes ++ [Node.afterEach body loc timeout] }

/-- Modelled from the spec: `Suite.Fail(message, callerSkip)` records a
failure on the suite-wide run state. -/
def SuiteState.fail (s : SuiteState) (message : String) (callerSkip : ℤ) : SuiteState :=
  { s with failures := s.failures ++ [{ message := message, callerSkip := callerSkip }] }

/-- Whether a Go function returned normally or unwound with a panic carrying
the given message. -/
inductive GoControl
  | normal
  | panicked (msg : String)
deriving DecidableEq, Repr

/-- `codelocation.New(skip)` (external source-location capture), represented
by its skip argument. -/
def codelocationNew (skip : ℤ) : CodeLocation := { skip := skip }

/-- `const defaultTimeout = 1` (seconds). -/
def defaultTimeout : ℤ := 1

/-- `time.Second` in nanoseconds. -/
def goSecond : ℤ := 1000000000

/-- Go conversion of a float to an integer type: truncation toward zero. -/
def truncQ (q : ℚ) : ℤ :=
  if 0 ≤ q then q.floor else -((-q).floor)

/-- `const GINKGO_PANIC` — the message `Fail` panics with. -/
def GINKGO_PANIC : String :=
  "\nYour test failed.\nGinkgo panics to prevent subsequent assertions from running.\nNormally Ginkgo rescues this panic so you shouldn't see it.\n\nBut, if you make an assertion in a goroutine, Ginkgo can't capture the panic.\nTo circumvent this, you should call\n\n\tdefer GinkgoRecover()\n\nat the top of the goroutine that caused this panic.\n"

/-- `parseTimeout(timeout ...float64) time.Duration`: the default of
`defaultTimeout` seconds when no timeout is supplied, otherwise
`time.Duration(timeout[0] * float64(time.Second))`. -/
def parseTimeout (timeout : List ℚ) : ℤ :=
  if timeout.length = 0 then
    defaultTimeout * goSecond
  else
    truncQ (timeout.headD 0 * (goSecond : ℚ))

/-- `Fail(message string, callerSkip ...int)`: records the failure on the
global suite, then panics with `GINKGO_PANIC`. -/
def Fail (s : SuiteState) (message : String) (callerSkip : List ℤ) : SuiteState × GoControl :=
  let skip : ℤ :=
    match callerSkip with
    | [] => 0
    | k :: _ => k
  (s.fail message skip, GoControl.panicked GINKGO_PANIC)

/-- The value a deferred `recover()` observes: `none` when no panic is in
flight, otherwise the panicked value; `shown` is the external
`fmt.Sprintf` rendering of that value with the `%#v` verb. -/
structure Recovered where
  shown : String
deriving DecidableEq, Repr

/-- `GinkgoRecover()`: if `recover()` returned a non-nil value, record a
`Goroutine Panicked` failure with caller skip 1 and return normally;
otherwise do nothing. -/
def GinkgoRecover (s : SuiteState) (recovered : Option Recovered) : SuiteState × GoControl :=
  match recovered with
  | none => (s, GoControl.normal)
  | some e => (s.fail ("Goroutine Panicked\n" ++ e.shown) 1, GoControl.normal)

/-- `Describe(text, body)`. -/
def Describe (s : SuiteState) (text : String) (body : GoBody) : SuiteState × Bool :=
  (s.pushContainerNode text body FlagType.none (codelocationNew 1), true)

/-- `FDescribe(text, body)`. -/
def FDescribe (s : SuiteState) (text : String) (body : GoBody) : SuiteState × Bool :=
  (s.pushContainerNode text body FlagType.focused (codelocationNew 1), true)

/-- `PDescribe(text, body)`. -/
def PDescribe (s : SuiteState) (text : String) (body : GoBody) : SuiteState × Bool :=
  (s.pushContainerNode text body FlagType.pending (codelocationNew 1), true)

/-- `XDescribe(text, body)`. -/
def XDescribe (s : SuiteState) (text : String) (body : GoBody) : SuiteState × Bool :=
  (s.pushContainerNode text body FlagType.pending (codelocationNew 1), true)

/-- `Context(text, body)`. -/
def Context (s : SuiteState) (text : String) (body : GoBody) : SuiteState × Bool :=
  (s.pushContainerNode text body FlagType.none (codelocationNew 1), true)

/-- `FContext(text, body)`. -/
def FContext (s : SuiteState) (text : String) (body : GoBody) : SuiteState × Bool :=
  (s.pushContainerNode text body FlagType.focused (codelocationNew 1), true)

/-- `PContext(text, body)`. -/
def PContext (s : SuiteState) (text : String) (body : GoBody) : SuiteState × Bool :=
  (s.pushContainerNode text body FlagType.pending (codelocationNew 1), true)

/-- `XContext(text, body)`. -/
def XContext (s : SuiteState) (text : String) (body : GoBody) : SuiteState × Bool :=
  (s.pushContainerNode text body FlagType.pending (codelocationNew 1), true)

/-- `It(text, body, timeout ...)`. -/
def It (s : SuiteState) (text : String) (body : GoBody) (timeout : List ℚ) : SuiteState × Bool :=
  (s.pushItNode text body FlagType.none (codelocationNew 1) (parseTimeout timeout), true)

/-- `FIt(text, body, timeout ...)`. -/
def FIt (s : SuiteState) (text : String) (body : GoBody) (timeout : List ℚ) : SuiteState × Bool :=
  (s.pushItNode text body FlagType.focused (codelocationNew 1) (parseTimeout timeout), true)

/-- `PIt(text, _ ...)`: the user arguments are discarded; a no-op body with a
zero timeout is pushed, flagged pending. -/
def PIt (s : SuiteState) (text : String) (args : List GoVal) : SuiteState × Bool :=
  (s.pushItNode text GoBody.noopFn FlagType.pending (codelocationNew 1) 0, true)

/-- `XIt(text, _ ...)`: same as `PIt`. -/
def XIt (s : SuiteState) (text : String) (args : List GoVal) : SuiteState × Bool :=
  (s.pushItNode text GoBody.noopFn FlagType.pending (codelocationNew 1) 0, true)

/-- `Measure(text, body, samples)`. -/
def Measure (s : SuiteState) (text : String) (body : GoBody) (samples : ℤ) : SuiteState × Bool :=
  (s.pushMeasureNode text body FlagType.none (codelocationNew 1) samples, true)

/-- `FMeasure(text, body, samples)`. -/
def FMeasure (s : SuiteState) (text : String) (body : GoBody) (samples : ℤ) : SuiteState × Bool :=
  (s.pushMeasureNode text body FlagType.focused (codelocationNew 1) samples, true)

/-- `PMeasure(text, _ ...)`: the user arguments are discarded; a no-op
benchmark body with a zero sample count is pushed, flagged pending. -/
def PMeasure (s : SuiteState) (text : String) (args : List GoVal) : SuiteState × Bool :=
  (s.pushMeasureNode text GoBody.noopBenchFn FlagType.pending (codelocationNew 1) 0, true)

/-- `XMeasure(text, _ ...)`: same as `PMeasure`. -/
def XMeasure (s : SuiteState) (text : String) (args : List GoVal) : SuiteState × Bool :=
  (s.pushMeasureNode text GoBody.noopBenchFn FlagType.pending (codelocationNew 1) 0, true)

/-- `BeforeEach(body, timeout ...)`. -/
def BeforeEach (s : SuiteState) (body : GoBody) (timeout : List ℚ) : SuiteState × Bool :=
  (s.pushBeforeEachNode body (codelocationNew 1) (parseTimeout timeout), true)

/-- `JustBeforeEach(body, timeout ...)`. -/
def JustBeforeEach (s : SuiteState) (body : GoBody) (timeout : List ℚ) : SuiteState × Bool :=
  (s.pushJustBeforeEachNode body (codelocationNew 1) (parseTimeout timeout), true)

/-- `AfterEach(body, timeout ...)`. -/
def AfterEach (s : SuiteState) (body : GoBody) (timeout : List ℚ) : SuiteState × Bool :=
  (s.pushAfterEachNode body (codelocationNew 1) (parseTimeout timeout), true)

/-- The reporter configuration fields `buildDefaultReporter` and the run
entry points read from `config.DefaultReporterConfig`. -/
structure ReporterConfig where
  noColor : Bool
  verbose : Bool
deriving DecidableEq, Repr

/-- `stenographer.New(color)` (external console renderer), represented by its
color argument. -/
structure Stenographer where
  color : Bool
deriving DecidableEq, Repr

/-- A reporter as constructed by `buildDefaultReporter`: either the local
console reporter backed by a stenographer, or the remote forwarding reporter
aimed at a server address; user-supplied custom reporters are opaque. -/
inductive Reporter
  | defaultReporter (cfg : ReporterConfig) (steno : Stenographer)
  | forwardingReporter (server : String)
  | custom (v : GoVal)
deriving DecidableEq, Repr

/-- `buildDefaultReporter()`: the remote forwarding reporter when the
`GINKGO_REMOTE_REPORTING_SERVER` environment variable (passed in here as
`remoteReportingServer`) is non-empty, else the stenographer-backed default
reporter. -/
def buildDefaultReporter (remoteReportingServer : String) (cfg : ReporterConfig) : Reporter :=
  if remoteReportingServer = "" then
    Reporter.defaultReporter cfg (Stenographer.mk (!cfg.noColor))
  else
    Reporter.forwardingReporter remoteReportingServer

/-- What `RunSpecsWithCustomReporters` hands to the outside world: the
direct-to-stdout mode it sets on the shared `GinkgoWriter`, and the reporter
list it passes to `Suite.Run`. -/
structure RunInvocation where
  writerDirectToStdout : Bool
  reporters : List Reporter
deriving DecidableEq, Repr

/-- The element-by-element copy loop converting `[]Reporter` to
`[]reporters.Reporter` in `RunSpecsWithCustomReporters`. -/
def convertReporters : List Reporter → List Reporter
  | [] => []
  | r :: rs => r :: convertReporters rs

/-- `RunSpecsWithCustomReporters(t, description, specReporters)`: sets the
writer's direct-to-stdout mode to the Verbose configuration, copies the
reporter list and hands it to the suite. -/
def RunSpecsWithCustomReporters (cfg : ReporterConfig) (t : GoVal) (description : String)
    (specReporters : List Reporter) : RunInvocation :=
  { writerDirectToStdout := cfg.verbose
    reporters := convertReporters specReporters }

/-- `RunSpecs(t, description)`: runs with just the default reporter. -/
def RunSpecs (remoteReportingServer : String) (cfg : ReporterConfig) (t : GoVal)
    (description : String) : RunInvocation :=
  RunSpecsWithCustomReporters cfg t description [buildDefaultReporter remoteReportingServer cfg]

/-- `RunSpecsWithDefaultAndCustomReporters(t, description, specReporters)`:
prepends the default reporter to the custom ones. -/
def RunSpecsWithDefaultAndCustomReporters (remoteReportingServer : String) (cfg : ReporterConfig)
    (t : GoVal) (description : String) (specReporters : List Reporter) : RunInvocation :=
  RunSpecsWithCustomReporters cfg t description
    (buildDefaultReporter remoteReportingServer cfg :: specReporters)

/-- The timeout attribute of a pushed node, when it has one. -/
def Node.timeoutOf : Node → Option ℤ
  | Node.container _ _ _ _ => none
  | Node.it _ _ _ _ timeout => some timeout
  | Node.measure _ _ _ _ _ => none
  | Node.beforeEach _ _ timeout => some timeout
  | Node.justBeforeEach _ _ timeout => some timeout
  | Node.afterEach _ _ timeout => some timeout

/-- The flag attribute of a pushed node, when it has one. -/
def Node.flagOf : Node → Option FlagType
  | Node.container _ _ flag _ => some flag
  | Node.it _ _ flag _ _ => some flag
  | Node.measure _ _ flag _ _ => some flag
  | Node.beforeEach _ _ _ => none
  | Node.justBeforeEach _ _ _ => none
  | Node.afterEach _ _ _ => none

/-- The timeout of the most recently pushed node of a suite state. -/
def lastTimeout (s : SuiteState) : Option ℤ :=
  s.nodes.getLast?.bind Node.timeoutOf

/-- The flag of the most recently pushed node of a suite state. -/
def lastFlag (s : SuiteState) : Option FlagType :=
  s.nodes.getLast?.bind Node.flagOf

/-- The most recently pushed node of a suite state. -/
def lastNode (s : SuiteState) : Option Node :=
  s.nodes.getLast?

theorem lastNode_concat (s : SuiteState) (n : Node) (fs : List Failure) :
    lastNode { nodes := s.nodes ++ [n], failures := fs } = some n := by
  simp [lastNode]

theorem lastNode_pushItNode (s : SuiteState) (text : String) (body : GoBody)
    (flag : FlagType) (loc : CodeLocation) (timeout : ℤ) :
    lastNode (s.pushItNode text body flag loc timeout) =
      some (Node.it text body flag loc timeout) := by
  simp [SuiteState.pushItNode, lastNode]

theorem lastNode_pushContainerNode (s : SuiteState) (text : String) (body : GoBody)
    (flag : FlagType) (loc : CodeLocation) :
    lastNode (s.pushContainerNode text body flag loc) =
      some (Node.container text body flag loc) := by
  simp [SuiteState.pushContainerNode, lastNode]

theorem lastNode_pushMeasureNode (s : SuiteState) (text : String) (body : GoBody)
    (flag : FlagType) (loc : CodeLocation) (samples : ℤ) :
    lastNode (s.pushMeasureNode text body flag loc samples) =
      some (Node.measure text body flag loc samples) := by
  simp [SuiteState.pushMeasureNode, lastNode]

theorem lastNode_pushBeforeEachNode (s : SuiteState) (body : GoBody)
    (loc : CodeLocation) (timeout : ℤ) :
    lastNode (s.pushBeforeEachNode body loc timeout) =
      some (Node.beforeEach body loc timeout) := by
  simp [SuiteState.pushBeforeEachNode, lastNode]

theorem lastNode_pushJustBeforeEachNode (s : SuiteState) (body : GoBody)
    (loc : CodeLocation) (timeout : ℤ) :
    lastNode (s.pushJustBeforeEachNode body loc timeout) =
      some (Node.justBeforeEach body loc timeout) := by
  simp [SuiteState.pushJustBeforeEachNode, lastNode]

theorem lastNode_pushAfterEachNode (s : SuiteState) (body : GoBody)
    (loc : CodeLocation) (timeout : ℤ) :
    lastNode (s.pushAfterEachNode body loc timeout) =
      some (Node.afterEach body loc timeout) := by
  simp [SuiteState.pushAfterEachNode, lastNode]

theorem lastTimeout_eq (s : SuiteState) :
    lastTimeout s = s.nodes.getLast?.bind Node.timeoutOf := rfl

theorem lastFlag_eq (s : SuiteState) :
    lastFlag s = s.nodes.getLast?.bind Node.flagOf := rfl

theorem convertReporters_id (l : List Reporter) : convertReporters l = l := by
  induction l with
  | nil => rfl
  | cons r rs ih => simp [convertReporters, ih]

theorem parseTimeout_nil : parseTimeout [] = defaultTimeout * goSecond := rfl

theorem parseTimeout_cons (t : ℚ) (rest : List ℚ) :
    parseTimeout (t :: rest) = truncQ (t * (goSecond : ℚ)) := by
  simp [parseTimeout]

theorem truncQ_eq (q : ℚ) : truncQ q = if 0 ≤ q then ⌊q⌋ else ⌈q⌉ := rfl

/-- C1: every leaf or async-hook declaration made without an explicit timeout
argument (`It`, `FIt`, `BeforeEach`, `JustBeforeEach`, `AfterEach` with the
timeout variadic empty) attaches a timeout of exactly one second
(`defaultTimeout * time.Second` = 1000000000 nanoseconds) to the pushed node;
when a timeout value `t` (in seconds, possibly fractional) is supplied, the
attached timeout is `t * time.Second` under the Go float-to-Duration
conversion. -/
theorem C1_default_and_supplied_timeout :
    defaultTimeout * goSecond = 1000000000 ∧
    (∀ s text body, lastTimeout (It s text body []).1 = some (defaultTimeout * goSecond)) ∧
    (∀ s text body, lastTimeout (FIt s text body []).1 = some (defaultTimeout * goSecond)) ∧
    (∀ s body, lastTimeout (BeforeEach s body []).1 = some (defaultTimeout * goSecond)) ∧
    (∀ s body, lastTimeout (JustBeforeEach s body []).1 = some (defaultTimeout * goSecond)) ∧
    (∀ s body, lastTimeout (AfterEach s body []).1 = some (defaultTimeout * goSecond)) ∧
    (∀ s text body t rest,
      lastTimeout (It s text body (t :: rest)).1 = some (truncQ (t * (goSecond : ℚ)))) ∧
    (∀ s text body t rest,
      lastTimeout (FIt s text body (t :: rest)).1 = some (truncQ (t * (goSecond : ℚ)))) ∧
    (∀ s body t rest,
      lastTimeout (BeforeEach s body (t :: rest)).1 = some (truncQ (t * (goSecond : ℚ)))) ∧
    (∀ s body t rest,
      lastTimeout (JustBeforeEach s body (t :: rest)).1 = some (truncQ (t * (goSecond : ℚ)))) ∧
    (∀ s body t rest,
      lastTimeout (AfterEach s body (t :: rest)).1 = some (truncQ (t * (goSecond : ℚ)))) := by
  refine ⟨by decide, ?_, ?_, ?_, ?_, ?_, ?_, ?_, ?_, ?_, ?_⟩ <;> intros <;>
    simp [It, FIt, BeforeEach, JustBeforeEach, AfterEach, SuiteState.pushItNode,
      SuiteState.pushBeforeEachNode, SuiteState.pushJustBeforeEachNode,
      SuiteState.pushAfterEachNode, lastTimeout, Node.timeoutOf, parseTimeout]

/-- C2: `Fail` records the failure (with the given message and skip offset,
defaulting to 0 when no callerSkip is supplied) on the suite-wide run state,
and then always panics with `GINKGO_PANIC`; it never returns normally. -/
theorem C2_Fail_records_then_panics :
    (∀ s message, (Fail s message []).1 = s.fail message 0) ∧
    (∀ s message k ks, (Fail s message (k :: ks)).1 = s.fail message k) ∧
    (∀ s message callerSkip, (Fail s message callerSkip).1.failures =
      s.failures ++ [{ message := message, callerSkip := callerSkip.headD 0 }]) ∧
    (∀ s message callerSkip, (Fail s message callerSkip).2 = GoControl.panicked GINKGO_PANIC) := by
  refine ⟨fun s message => rfl, fun s message k ks => rfl, ?_, ?_⟩ <;>
    intro s message callerSkip <;> cases callerSkip <;> rfl

/-- C3: `GinkgoRecover`, when a panic is in flight (`recover` returned a
non-nil value), records a failure on the suite-wide run state — the
`Goroutine Panicked` message with caller skip 1 — and returns normally
without re-panicking; when no panic is in flight it records nothing and
leaves the suite state unchanged. -/
theorem C3_GinkgoRecover_converts_panic :
    (∀ s, GinkgoRecover s none = (s, GoControl.normal)) ∧
    (∀ s e, (GinkgoRecover s (some e)).1.failures =
      s.failures ++ [{ message := "Goroutine Panicked\n" ++ e.shown, callerSkip := 1 }]) ∧
    (∀ s e, (GinkgoRecover s (some e)).1.nodes = s.nodes) ∧
    (∀ s e, (GinkgoRecover s (some e)).2 = GoControl.normal) :=
  ⟨fun s => rfl, fun s e => rfl, fun s e => rfl, fun s e => rfl⟩

/-- C4: every declaration pushes a node whose flag is determined by the
declaration name: unprefixed forms push `None`, F-prefixed forms push
`Focused`, and P- and X-prefixed forms push `Pending`, with each P- variant
equal, as a function, to its X- counterpart. -/
theorem C4_declaration_flags :
    (∀ s text body, lastFlag (Describe s text body).1 = some FlagType.none) ∧
    (∀ s text body, lastFlag (Context s text body).1 = some FlagType.none) ∧
    (∀ s text body tos, lastFlag (It s text body tos).1 = some FlagType.none) ∧
    (∀ s text body n, lastFlag (Measure s text body n).1 = some FlagType.none) ∧
    (∀ s text body, lastFlag (FDescribe s text body).1 = some FlagType.focused) ∧
    (∀ s text body, lastFlag (FContext s text body).1 = some FlagType.focused) ∧
    (∀ s text body tos, lastFlag (FIt s text body tos).1 = some FlagType.focused) ∧
    (∀ s text body n, lastFlag (FMeasure s text body n).1 = some FlagType.focused) ∧
    (∀ s text body, lastFlag (PDescribe s text body).1 = some FlagType.pending) ∧
    (∀ s text body, lastFlag (XDescribe s text body).1 = some FlagType.pending) ∧
    (∀ s text body, lastFlag (PContext s text body).1 = some FlagType.pending) ∧
    (∀ s text body, lastFlag (XContext s text body).1 = some FlagType.pending) ∧
    (∀ s text args, lastFlag (PIt s text args).1 = some FlagType.pending) ∧
    (∀ s text args, lastFlag (XIt s text args).1 = some FlagType.pending) ∧
    (∀ s text args, lastFlag (PMeasure s text args).1 = some FlagType.pending) ∧
    (∀ s text args, lastFlag (XMeasure s text args).1 = some FlagType.pending) ∧
    (∀ s text body, PDescribe s text body = XDescribe s text body) ∧
    (∀ s text body, PContext s text body = XContext s text body) ∧
    (∀ s text args, PIt s text args = XIt s text args) ∧
    (∀ s text args, PMeasure s text args = XMeasure s text args) := by
  refine ⟨?_, ?_, ?_, ?_, ?_, ?_, ?_, ?_, ?_, ?_, ?_, ?_, ?_, ?_, ?_, ?_, ?_, ?_, ?_, ?_⟩ <;>
    intros <;>
      simp [Describe, Context, It, Measure, FDescribe, FContext, FIt, FMeasure,
        PDescribe, XDescribe, PContext, XContext, PIt, XIt, PMeasure, XMeasure,
        SuiteState.pushContainerNode, SuiteState.pushItNode, SuiteState.pushMeasureNode,
        lastFlag, Node.flagOf]

/-- C5: a leaf declared pending at its own declaration site (`PIt`, `XIt`,
`PMeasure`, `XMeasure`) discards the user-supplied arguments entirely: the
pushed node carries a no-op body and a zero timeout (`PIt`/`XIt`) or a zero
sample count (`PMeasure`/`XMeasure`), whatever the arguments were. -/
theorem C5_pending_leaf_discards_body :
    (∀ s text args, lastNode (PIt s text args).1 =
      some (Node.it text GoBody.noopFn FlagType.pending (codelocationNew 1) 0)) ∧
    (∀ s text args, lastNode (XIt s text args).1 =
      some (Node.it text GoBody.noopFn FlagType.pending (codelocationNew 1) 0)) ∧
    (∀ s text args, lastNode (PMeasure s text args).1 =
      some (Node.measure text GoBody.noopBenchFn FlagType.pending (codelocationNew 1) 0)) ∧
    (∀ s text args, lastNode (XMeasure s text args).1 =
      some (Node.measure text GoBody.noopBenchFn FlagType.pending (codelocationNew 1) 0)) := by
  refine ⟨?_, ?_, ?_, ?_⟩ <;> intros <;>
    simp [PIt, XIt, PMeasure, XMeasure, SuiteState.pushItNode, SuiteState.pushMeasureNode,
      lastNode]

/-- C6: `buildDefaultReporter` returns the remote forwarding reporter exactly
when the `GINKGO_REMOTE_REPORTING_SERVER` environment value is non-empty;
when it is empty it returns the stenographer-backed default reporter. -/
theorem C6_buildDefaultReporter_selection (env : String) (cfg : ReporterConfig) :
    (env ≠ "" → buildDefaultReporter env cfg = Reporter.forwardingReporter env) ∧
    (env = "" → buildDefaultReporter env cfg =
      Reporter.defaultReporter cfg (Stenographer.mk (!cfg.noColor))) := by
  constructor <;> intro h <;> simp [buildDefaultReporter, h]

/-- Witness for C6 at the concrete environment values "server" and "". -/
theorem C6_buildDefaultReporter_selection_witness :
    buildDefaultReporter "server" { noColor := false, verbose := false } =
      Reporter.forwardingReporter "server" ∧
    buildDefaultReporter "" { noColor := false, verbose := false } =
      Reporter.defaultReporter { noColor := false, verbose := false } (Stenographer.mk true) :=
  ⟨(C6_buildDefaultReporter_selection "server" { noColor := false, verbose := false }).1
      (by decide),
   (C6_buildDefaultReporter_selection "" { noColor := false, verbose := false }).2 rfl⟩

/-- C7: reporter registration order is preserved end to end:
`RunSpecsWithDefaultAndCustomReporters` hands the suite the default reporter
first followed by the custom reporters in order, and
`RunSpecsWithCustomReporters` hands the suite a list equal, element for
element, to the list it was given. -/
theorem C7_reporter_order (env : String) (cfg : ReporterConfig) (t : GoVal)
    (description : String) (custom : List Reporter) :
    (RunSpecsWithDefaultAndCustomReporters env cfg t description custom).reporters =
      buildDefaultReporter env cfg :: custom ∧
    (RunSpecsWithCustomReporters cfg t description custom).reporters = custom := by
  constructor <;>
    simp [RunSpecsWithDefaultAndCustomReporters, RunSpecsWithCustomReporters,
      convertReporters_id, convertReporters]

/-- C8: all three run entry points set the shared writer's direct-to-stdout
mode equal to the Verbose reporter configuration before handing control to
the suite. -/
theorem C8_writer_direct_to_stdout (env : String) (cfg : ReporterConfig) (t : GoVal)
    (description : String) (custom : List Reporter) :
    (RunSpecsWithCustomReporters cfg t description custom).writerDirectToStdout = cfg.verbose ∧
    (RunSpecs env cfg t description).writerDirectToStdout = cfg.verbose ∧
    (RunSpecsWithDefaultAndCustomReporters env cfg t description custom).writerDirectToStdout =
      cfg.verbose :=
  ⟨rfl, rfl, rfl⟩

/-- C9: every declaration function of the public surface returns `true` on
every input; the boolean carries no information. -/
theorem C9_declarations_return_true :
    (∀ s text body, (Describe s text body).2 = true) ∧
    (∀ s text body, (FDescribe s text body).2 = true) ∧
    (∀ s text body, (PDescribe s text body).2 = true) ∧
    (∀ s text body, (XDescribe s text body).2 = true) ∧
    (∀ s text body, (Context s text body).2 = true) ∧
    (∀ s text body, (FContext s text body).2 = true) ∧
    (∀ s text body, (PContext s text body).2 = true) ∧
    (∀ s text body, (XContext s text body).2 = true) ∧
    (∀ s text body tos, (It s text body tos).2 = true) ∧
    (∀ s text body tos, (FIt s text body tos).2 = true) ∧
    (∀ s text args, (PIt s text args).2 = true) ∧
    (∀ s text args, (XIt s text args).2 = true) ∧
    (∀ s text body n, (Measure s text body n).2 = true) ∧
    (∀ s text body n, (FMeasure s text body n).2 = true) ∧
    (∀ s text args, (PMeasure s text args).2 = true) ∧
    (∀ s text args, (XMeasure s text args).2 = true) ∧
    (∀ s body tos, (BeforeEach s body tos).2 = true) ∧
    (∀ s body tos, (JustBeforeEach s body tos).2 = true) ∧
    (∀ s body tos, (AfterEach s body tos).2 = true) := by
  refine ⟨?_, ?_, ?_, ?_, ?_, ?_, ?_, ?_, ?_, ?_, ?_, ?_, ?_, ?_, ?_, ?_, ?_, ?_, ?_⟩ <;>
    intros <;> rfl

/-- C10: an explicitly supplied timeout is honored even when it is zero or
negative: `parseTimeout` falls back to the one-second default only on the
empty argument list, and for every supplied value `t` the result is
`t * time.Second` under the Go float-to-Duration conversion — in particular
a supplied 0 yields a zero budget and a supplied -2 yields -2 seconds. -/
theorem C10_explicit_timeout_honored :
    (∀ t rest, parseTimeout (t :: rest) = truncQ (t * (goSecond : ℚ))) ∧
    parseTimeout [0] = 0 ∧
    parseTimeout [-2] = -2000000000 ∧
    parseTimeout [] = defaultTimeout * goSecond := by
  refine ⟨parseTimeout_cons, ?_, ?_, rfl⟩ <;>
    rw [parseTimeout_cons, truncQ_eq] <;> norm_num [goSecond, Int.ceil_eq_iff]

end Ginkgo
